import Mathlib

/-!
Verification of the device-abstraction contract of rust-metal-sketch.

The repository consists of a single declaration-only Rust file, src/src/lib.rs,
that declares a `Device` trait (a factory for GPU resources), marker traits for
the resource handles, and the descriptor structs consumed at creation time.

The development has two layers:

1. A syntactic embedding of the trait surface as written in src/src/lib.rs:
   which error associated types the `Device` trait declares, which error type
   each creation operation names in its `Result`, and which supertrait bounds
   the handle traits and associated handle types carry.  This layer is a direct
   transcription of the source text.

2. A behavioral model of the contract.  The source file declares signatures
   only (no function bodies), so the behavior of the operations and the
   command-queue backpressure state machine are modelled from the
   specification's words; every such definition carries a doc comment starting
   with "Modelled from the spec:".
-/

namespace MetalSketch

/-! ## Layer 1: syntactic embedding of the trait surface of src/src/lib.rs -/

/-- The traits declared at the top of src/src/lib.rs:
`Resource`, `Buffer`, `Texture`, `Sampler`, `ShaderProgram`, `CommandQueue`. -/
inductive TraitName
  | resource
  | buffer
  | texture
  | sampler
  | shaderProgram
  | commandQueue
  deriving DecidableEq

/-- The supertrait bounds exactly as written in src/src/lib.rs lines 1 to 6:
`pub trait Buffer : Resource` and `pub trait Texture : Resource`; the
remaining traits (`Resource`, `Sampler`, `ShaderProgram`, `CommandQueue`)
declare no supertrait. -/
def superTraits : TraitName → List TraitName
  | TraitName.buffer => [TraitName.resource]
  | TraitName.texture => [TraitName.resource]
  | _ => []

/-- A trait carries the `Resource` capability when it is `Resource` itself or
lists `Resource` among its supertraits (the hierarchy in the source is one
level deep). -/
def traitHasResource (t : TraitName) : Bool :=
  decide (t = TraitName.resource) || decide (TraitName.resource ∈ superTraits t)

/-- The seven associated handle types of the `Device` trait. -/
inductive HandleName
  | shaderProgram
  | commandQueue
  | buffer
  | texture
  | sampler
  | depthStencilState
  | renderPipeline
  deriving DecidableEq

/-- The per-operation error type names that appear in src/src/lib.rs, either
as declared associated types or in a creation operation's `Result` type. -/
inductive ErrTypeName
  | shaderProgramCreationError
  | commandQueueCreationError
  | bufferCreationError
  | textureCreationError
  | samplerCreationError
  | renderPipelineCreationError
  deriving DecidableEq

/-- The trait bound placed on each associated handle type inside
`trait Device`, as written in the source: `type ShaderProgram : ShaderProgram;`
through `type Sampler : Sampler;`, while `type DepthStencilState;` and
`type RenderPipeline;` carry no bound. -/
def handleBound : HandleName → Option TraitName
  | HandleName.shaderProgram => some TraitName.shaderProgram
  | HandleName.commandQueue => some TraitName.commandQueue
  | HandleName.buffer => some TraitName.buffer
  | HandleName.texture => some TraitName.texture
  | HandleName.sampler => some TraitName.sampler
  | HandleName.depthStencilState => none
  | HandleName.renderPipeline => none

/-- A handle type satisfies the `Resource` bound when its declared bound, if
any, carries the `Resource` capability. -/
def handleSatisfiesResource (h : HandleName) : Bool :=
  match handleBound h with
  | some t => traitHasResource t
  | none => false

/-- All seven associated handle types of `Device`, in declaration order. -/
def allHandleNames : List HandleName :=
  [HandleName.shaderProgram, HandleName.commandQueue, HandleName.buffer,
   HandleName.texture, HandleName.sampler, HandleName.depthStencilState,
   HandleName.renderPipeline]

/-- One creation operation of the `Device` trait: the handle type it creates
(the operation is named create_<handle>) and the error type named in its
`Result` return type, or `none` when the operation returns the handle type
directly with no error channel. -/
structure DeviceOp where
  creates : HandleName
  errorChannel : Option ErrTypeName
  deriving DecidableEq

/-- The seven creation operations of `trait Device`, transcribed from their
signatures in src/src/lib.rs in declaration order.  Note that
`create_depth_stencil_state` returns `DepthStencilState` directly (no
`Result`), and that `create_texture` names `TextureCreationError` in its
return type. -/
def deviceOps : List DeviceOp :=
  [DeviceOp.mk HandleName.shaderProgram (some ErrTypeName.shaderProgramCreationError),
   DeviceOp.mk HandleName.commandQueue (some ErrTypeName.commandQueueCreationError),
   DeviceOp.mk HandleName.buffer (some ErrTypeName.bufferCreationError),
   DeviceOp.mk HandleName.texture (some ErrTypeName.textureCreationError),
   DeviceOp.mk HandleName.sampler (some ErrTypeName.samplerCreationError),
   DeviceOp.mk HandleName.depthStencilState none,
   DeviceOp.mk HandleName.renderPipeline (some ErrTypeName.renderPipelineCreationError)]

/-- The error associated types DECLARED by the `Device` trait, transcribed
from src/src/lib.rs lines 16 to 20 in declaration order:
`type ShaderProgramCreationError : Show;` through
`type RenderPipelineCreationError : Show;`.  The source declares exactly
these five; no `type TextureCreationError` declaration appears anywhere in
the file. -/
def deviceDeclaredErrorTypes : List ErrTypeName :=
  [ErrTypeName.shaderProgramCreationError, ErrTypeName.commandQueueCreationError,
   ErrTypeName.bufferCreationError, ErrTypeName.samplerCreationError,
   ErrTypeName.renderPipelineCreationError]

/-! ## Layer 2: behavioral model of the contract

The source declares no function bodies, so the following definitions are
modelled from the specification. -/

/-- Modelled from the spec: `BufferHints` is creation-time configuration,
declared as an empty struct in the source sketch; absence means default
hints. -/
structure BufferHints
  deriving DecidableEq

/-- The default hints, used when `create_buffer` receives `None`. -/
def BufferHints.default : BufferHints := BufferHints.mk

/-- Modelled from the spec: opaque shader-program input, validated at
creation time; the source's `ShaderProgramInput` associated type is fully
abstract, so the payload is opaque and a flag records whether the backend
accepts it (compilation/link success). -/
structure ShaderProgramInput where
  payload : Nat
  wellFormed : Bool
  deriving DecidableEq

/-- Modelled from the spec: a fully-specified texture blueprint; the source
struct is an empty sketch, so the configuration is opaque and a flag records
whether the format/dimension combination is supported by the backend. -/
structure TextureDescriptor where
  config : Nat
  supported : Bool
  deriving DecidableEq

/-- Modelled from the spec: a fully-specified sampler blueprint; the source
struct is an empty sketch, so the configuration is opaque and a flag records
whether the descriptor values are valid. -/
structure SamplerDescriptor where
  config : Nat
  valid : Bool
  deriving DecidableEq

/-- Modelled from the spec: a fully-specified depth/stencil blueprint; the
source struct is an empty sketch, so the configuration is opaque.  No
validity flag: creation from it cannot fail. -/
structure DepthStencilStateDescriptor where
  config : Nat
  deriving DecidableEq

/-- Modelled from the spec: a fully-specified render-pipeline blueprint; the
source struct is an empty sketch, so the configuration is opaque and a flag
records whether the shader/state combination is compatible. -/
structure RenderPipelineDescriptor where
  config : Nat
  compatible : Bool
  deriving DecidableEq

/-- Modelled from the spec: a shader program handle with an identity and the
input it was compiled from. -/
structure ShaderProgram where
  id : Nat
  input : ShaderProgramInput
  deriving DecidableEq

/-- Modelled from the spec: a buffer handle with an identity, a capacity in
bytes, and the hints fixed at creation. -/
structure Buffer where
  id : Nat
  capacity : Nat
  hints : BufferHints
  deriving DecidableEq

/-- Modelled from the spec: a texture handle with an identity and its
descriptor. -/
structure Texture where
  id : Nat
  desc : TextureDescriptor
  deriving DecidableEq

/-- Modelled from the spec: a sampler handle with an identity and its
descriptor; immutable once created. -/
structure Sampler where
  id : Nat
  desc : SamplerDescriptor
  deriving DecidableEq

/-- Modelled from the spec: a depth/stencil state that directly materializes
its descriptor (the source notes most implementations will use the
descriptor as the state directly). -/
structure DepthStencilState where
  desc : DepthStencilStateDescriptor
  deriving DecidableEq

/-- Modelled from the spec: a render pipeline handle with an identity and its
descriptor. -/
structure RenderPipeline where
  id : Nat
  desc : RenderPipelineDescriptor
  deriving DecidableEq

/-- Modelled from the spec: the state of a command queue.  `capacity` is the
optional bound fixed at creation (`none` is unbounded); `outstanding` counts
buffers submitted but not yet completed; `pending` is the FIFO of submissions
blocked by backpressure, oldest first; `accepted` records, in order, the
submissions that have entered the queue (immediately or after being
unblocked). -/
structure QueueState where
  capacity : Option Nat
  outstanding : Nat
  pending : List Nat
  accepted : List Nat
  deriving DecidableEq

/-- Modelled from the spec: a freshly created queue with the given capacity
bound, no outstanding buffers and no blocked submissions. -/
def QueueState.new (c : Option Nat) : QueueState :=
  QueueState.mk c 0 [] []

/-- Modelled from the spec: submitting command buffer `id`.  With an
unbounded queue the submission is always accepted and the outstanding count
grows.  With capacity `n`, a submission that would push the outstanding
count above `n` blocks: it is appended to the FIFO of pending submissions
(never failed, never dropped); otherwise it is accepted immediately. -/
def QueueState.submit (q : QueueState) (id : Nat) : QueueState :=
  match q.capacity with
  | none =>
      QueueState.mk q.capacity (q.outstanding + 1) q.pending (q.accepted ++ [id])
  | some n =>
      if n < q.outstanding + 1 then
        QueueState.mk q.capacity q.outstanding (q.pending ++ [id]) q.accepted
      else
        QueueState.mk q.capacity (q.outstanding + 1) q.pending (q.accepted ++ [id])

/-- Modelled from the spec: completion of the oldest outstanding command
buffer.  When no buffer is outstanding nothing can complete.  A completion
lowers the outstanding count by one and, when submissions are blocked,
unblocks exactly the first pending submission (FIFO), which becomes
outstanding in its turn, so the count is back at its pre-completion value. -/
def QueueState.complete (q : QueueState) : QueueState :=
  if q.outstanding = 0 then q
  else
    match q.pending with
    | [] => QueueState.mk q.capacity (q.outstanding - 1) q.pending q.accepted
    | p :: rest => QueueState.mk q.capacity q.outstanding rest (q.accepted ++ [p])

/-- A queue event: a submission of a command buffer or a completion signal. -/
inductive QEvent
  | submit (id : Nat)
  | complete
  deriving DecidableEq

/-- One step of the queue state machine. -/
def QueueState.step (q : QueueState) (e : QEvent) : QueueState :=
  match e with
  | QEvent.submit id => q.submit id
  | QEvent.complete => q.complete

/-- Running the queue state machine over a list of events. -/
def QueueState.run (q : QueueState) (es : List QEvent) : QueueState :=
  es.foldl QueueState.step q

/-- Modelled from the spec: the mutable state behind a `Device` handle: a
fresh-identity counter for the resources it creates, the health of backend
allocation, and the backend limit on buffer length. -/
structure DeviceState where
  nextId : Nat
  canAlloc : Bool
  maxBufferLength : Nat
  deriving DecidableEq

/-- Modelled from the spec: the command queue handle returned by the
device. -/
structure CommandQueue where
  id : Nat
  queue : QueueState
  deriving DecidableEq

/-- Error kind for create_shader_program: source invalid or failed backend
compilation/linking. -/
inductive ShaderProgramCreationError
  | compilationFailed
  deriving DecidableEq

/-- Error kind for create_command_queue: backend could not allocate the
requested queue. -/
inductive CommandQueueCreationError
  | allocationFailed
  deriving DecidableEq

/-- Error kind for create_buffer: invalid length or allocation failure. -/
inductive BufferCreationError
  | invalidLength
  | allocationFailed
  deriving DecidableEq

/-- Error kind for create_texture: unsupported descriptor combination or
allocation failure. -/
inductive TextureCreationError
  | unsupportedDescriptor
  | allocationFailed
  deriving DecidableEq

/-- Error kind for create_sampler: invalid descriptor values. -/
inductive SamplerCreationError
  | invalidDescriptor
  deriving DecidableEq

/-- Error kind for create_render_pipeline: incompatible or invalid pipeline
state combination. -/
inductive RenderPipelineCreationError
  | incompatibleState
  deriving DecidableEq

/-- Modelled from the spec: create a shader program, immediately ready for
use; fails with a compilation error when the source is invalid for the
backend, leaving the device unchanged. -/
def Device.create_shader_program (d : DeviceState) (input : ShaderProgramInput) :
    Except ShaderProgramCreationError ShaderProgram × DeviceState :=
  if input.wellFormed = false then
    (Except.error ShaderProgramCreationError.compilationFailed, d)
  else
    (Except.ok (ShaderProgram.mk d.nextId input),
     DeviceState.mk (d.nextId + 1) d.canAlloc d.maxBufferLength)

/-- Modelled from the spec: create a command queue with the requested
capacity bound (`none` unbounded); fails only when the backend cannot
allocate the queue, independently of the requested count, leaving the device
unchanged. -/
def Device.create_command_queue (d : DeviceState) (count : Option Nat) :
    Except CommandQueueCreationError CommandQueue × DeviceState :=
  if d.canAlloc = false then
    (Except.error CommandQueueCreationError.allocationFailed, d)
  else
    (Except.ok (CommandQueue.mk d.nextId (QueueState.new count)),
     DeviceState.mk (d.nextId + 1) d.canAlloc d.maxBufferLength)

/-- Modelled from the spec: allocate a buffer of `length` bytes with the
given hints (default hints when `none`).  Fails on invalid length (zero or
exceeding the backend limit) or on allocation failure, leaving the device
unchanged. -/
def Device.create_buffer (d : DeviceState) (length : Nat) (hints : Option BufferHints) :
    Except BufferCreationError Buffer × DeviceState :=
  if length = 0 ∨ d.maxBufferLength < length then
    (Except.error BufferCreationError.invalidLength, d)
  else if d.canAlloc = false then
    (Except.error BufferCreationError.allocationFailed, d)
  else
    (Except.ok (Buffer.mk d.nextId length (hints.getD BufferHints.default)),
     DeviceState.mk (d.nextId + 1) d.canAlloc d.maxBufferLength)

/-- Modelled from the spec: create a texture from its descriptor; fails when
the descriptor specifies an unsupported format/dimension combination or on
allocation failure, leaving the device unchanged. -/
def Device.create_texture (d : DeviceState) (desc : TextureDescriptor) :
    Except TextureCreationError Texture × DeviceState :=
  if desc.supported = false then
    (Except.error TextureCreationError.unsupportedDescriptor, d)
  else if d.canAlloc = false then
    (Except.error TextureCreationError.allocationFailed, d)
  else
    (Except.ok (Texture.mk d.nextId desc),
     DeviceState.mk (d.nextId + 1) d.canAlloc d.maxBufferLength)

/-- Modelled from the spec: create an immutable sampler from its descriptor;
fails only on invalid descriptor values (no backend work required), leaving
the device unchanged.  Each successful creation consumes a fresh identity:
creation is not memoized. -/
def Device.create_sampler (d : DeviceState) (desc : SamplerDescriptor) :
    Except SamplerCreationError Sampler × DeviceState :=
  if desc.valid = false then
    (Except.error SamplerCreationError.invalidDescriptor, d)
  else
    (Except.ok (Sampler.mk d.nextId desc),
     DeviceState.mk (d.nextId + 1) d.canAlloc d.maxBufferLength)

/-- Modelled from the spec: materialize a depth/stencil state directly from
its descriptor.  No error channel: the operation cannot fail and performs no
backend allocation, so the device state is returned unchanged. -/
def Device.create_depth_stencil_state (d : DeviceState) (desc : DepthStencilStateDescriptor) :
    DepthStencilState × DeviceState :=
  (DepthStencilState.mk desc, d)

/-- Modelled from the spec: compile and link a render pipeline from its
descriptor; fails on incompatible shader/state combinations, leaving the
device unchanged. -/
def Device.create_render_pipeline (d : DeviceState) (desc : RenderPipelineDescriptor) :
    Except RenderPipelineCreationError RenderPipeline × DeviceState :=
  if desc.compatible = false then
    (Except.error RenderPipelineCreationError.incompatibleState, d)
  else
    (Except.ok (RenderPipeline.mk d.nextId desc),
     DeviceState.mk (d.nextId + 1) d.canAlloc d.maxBufferLength)

/-! ## Queue state-machine lemmas -/

/-- Submission never changes the capacity bound fixed at creation. -/
theorem QueueState.submit_capacity (q : QueueState) (id : Nat) :
    (q.submit id).capacity = q.capacity := by
  obtain ⟨c, o, pend, acc⟩ := q
  cases c with
  | none => rfl
  | some n => by_cases h : n < o + 1 <;> simp [QueueState.submit, h]

/-- Completion never changes the capacity bound fixed at creation. -/
theorem QueueState.complete_capacity (q : QueueState) :
    q.complete.capacity = q.capacity := by
  obtain ⟨c, o, pend, acc⟩ := q
  by_cases h : o = 0
  · simp [QueueState.complete, h]
  · cases pend <;> simp [QueueState.complete, h]

/-- A step never changes the capacity bound fixed at creation. -/
theorem QueueState.step_capacity (q : QueueState) (e : QEvent) :
    (q.step e).capacity = q.capacity := by
  cases e with
  | submit id => exact q.submit_capacity id
  | complete => exact q.complete_capacity

/-- On a queue bounded by `n`, submission preserves the outstanding bound. -/
theorem QueueState.submit_outstanding_le (n : Nat) (q : QueueState) (id : Nat)
    (hc : q.capacity = some n) (ho : q.outstanding ≤ n) :
    (q.submit id).outstanding ≤ n := by
  obtain ⟨c, o, pend, acc⟩ := q
  cases hc
  by_cases h : n < o + 1
  · simpa [QueueState.submit, h] using ho
  · simp only [QueueState.submit, if_neg h]
    omega

/-- Completion preserves the outstanding bound. -/
theorem QueueState.complete_outstanding_le (n : Nat) (q : QueueState)
    (ho : q.outstanding ≤ n) : q.complete.outstanding ≤ n := by
  obtain ⟨c, o, pend, acc⟩ := q
  replace ho : o ≤ n := ho
  by_cases h : o = 0
  · simp [QueueState.complete, h]
  · cases pend <;> simp [QueueState.complete, h] <;> omega

/-- The key safety invariant of a bounded queue: along every event trace,
the capacity bound is preserved and the outstanding count stays at most the
bound. -/
theorem QueueState.run_outstanding_le (n : Nat) (es : List QEvent) :
    ∀ q : QueueState, q.capacity = some n → q.outstanding ≤ n →
      (QueueState.run q es).capacity = some n
        ∧ (QueueState.run q es).outstanding ≤ n := by
  induction es with
  | nil => exact fun q hc ho => ⟨hc, ho⟩
  | cons e tl ih =>
      intro q hc ho
      have h1 : (q.step e).capacity = some n := by
        rw [QueueState.step_capacity]; exact hc
      have h2 : (q.step e).outstanding ≤ n := by
        cases e with
        | submit id => exact QueueState.submit_outstanding_le n q id hc ho
        | complete => exact QueueState.complete_outstanding_le n q ho
      exact ih (q.step e) h1 h2

/-- On an unbounded queue with no blocked submissions, every trace keeps the
capacity unbounded and the pending FIFO empty. -/
theorem QueueState.run_unbounded (es : List QEvent) :
    ∀ q : QueueState, q.capacity = none → q.pending = [] →
      (QueueState.run q es).capacity = none
        ∧ (QueueState.run q es).pending = [] := by
  induction es with
  | nil => exact fun q hc hp => ⟨hc, hp⟩
  | cons e tl ih =>
      intro q hc hp
      have h1 : (q.step e).capacity = none ∧ (q.step e).pending = [] := by
        cases e with
        | submit id =>
            obtain ⟨c, o, pend, acc⟩ := q
            cases hc
            simpa [QueueState.step, QueueState.submit] using hp
        | complete =>
            obtain ⟨c, o, pend, acc⟩ := q
            cases hc
            cases hp
            by_cases h : o = 0 <;>
              simp [QueueState.step, QueueState.complete, h]
      exact ih (q.step e) h1.1 h1.2

/-! ## Claims -/

/-- Claim C1: for a command queue created with capacity bound `some n`, the
outstanding count never exceeds `n` along any event trace; a submission that
would exceed the bound blocks, being appended to the FIFO of pending
submissions rather than failed or dropped; and each completion unblocks
exactly the first pending submission, in FIFO order. -/
theorem c1_bounded_queue_backpressure (n : Nat) :
    (∀ es : List QEvent, ((QueueState.new (some n)).run es).outstanding ≤ n)
    ∧ (∀ (q : QueueState) (id : Nat), q.capacity = some n →
        n < q.outstanding + 1 →
        q.submit id =
          QueueState.mk q.capacity q.outstanding (q.pending ++ [id]) q.accepted)
    ∧ (∀ (q : QueueState) (p : Nat) (rest : List Nat),
        q.pending = p :: rest → q.outstanding ≠ 0 →
        q.complete =
          QueueState.mk q.capacity q.outstanding rest (q.accepted ++ [p])) := by
  refine ⟨?_, ?_, ?_⟩
  · intro es
    exact (QueueState.run_outstanding_le n es (QueueState.new (some n)) rfl
      (Nat.zero_le n)).2
  · intro q id hc hlt
    obtain ⟨c, o, pend, acc⟩ := q
    cases hc
    simp [QueueState.submit, hlt]
  · intro q p rest hp ho
    obtain ⟨c, o, pend, acc⟩ := q
    cases hp
    replace ho : o ≠ 0 := ho
    simp [QueueState.complete, ho]

/-- Witness for C1 at capacity 1 with concrete queue states. -/
theorem c1_bounded_queue_backpressure_witness :
    ((QueueState.new (some 1)).run [QEvent.submit 10, QEvent.submit 11]).outstanding ≤ 1
    ∧ (QueueState.mk (some 1) 1 [] []).submit 5 = QueueState.mk (some 1) 1 [5] []
    ∧ (QueueState.mk (some 1) 1 [7] [3]).complete = QueueState.mk (some 1) 1 [] [3, 7] := by
  refine ⟨(c1_bounded_queue_backpressure 1).1 [QEvent.submit 10, QEvent.submit 11], ?_, ?_⟩
  · have h := (c1_bounded_queue_backpressure 1).2.1
      (QueueState.mk (some 1) 1 [] []) 5 rfl (by decide)
    simpa using h
  · have h := (c1_bounded_queue_backpressure 1).2.2
      (QueueState.mk (some 1) 1 [7] [3]) 7 [] rfl (by decide)
    simpa using h

/-- Claim C2 (code bug in the source): each fallible creation operation of
the `Device` trait names its own distinct error kind in its return type —
the six fallible operations use six pairwise distinct error type names —
but the source declares only five of them as associated types of the trait:
`TextureCreationError`, named in create_texture's return type, is missing
from the declared error associated types. -/
theorem c2_texture_error_kind_not_declared :
    DeviceOp.mk HandleName.texture (some ErrTypeName.textureCreationError) ∈ deviceOps
    ∧ (deviceOps.filterMap DeviceOp.errorChannel).Nodup
    ∧ deviceOps.filterMap DeviceOp.errorChannel
        = [ErrTypeName.shaderProgramCreationError, ErrTypeName.commandQueueCreationError,
           ErrTypeName.bufferCreationError, ErrTypeName.textureCreationError,
           ErrTypeName.samplerCreationError, ErrTypeName.renderPipelineCreationError]
    ∧ ErrTypeName.textureCreationError ∉ deviceDeclaredErrorTypes := by
  decide

/-- Counterexample to claim C3 as stated: five of the seven handle types do
not satisfy the `Resource` bound — the `Sampler`, `ShaderProgram` and
`CommandQueue` traits declare no supertrait, and the `DepthStencilState` and
`RenderPipeline` associated types carry no bound at all. -/
theorem c3_not_all_handles_resource :
    handleSatisfiesResource HandleName.sampler = false
    ∧ handleSatisfiesResource HandleName.commandQueue = false
    ∧ handleSatisfiesResource HandleName.shaderProgram = false
    ∧ handleSatisfiesResource HandleName.depthStencilState = false
    ∧ handleSatisfiesResource HandleName.renderPipeline = false := by
  decide

/-- Claim C3 amended: exactly the `Buffer` and `Texture` handle types of the
`Device` satisfy the `Resource` bound; the other five handle types carry no
`Resource` capability at this layer. -/
theorem c3_resource_bound_exact :
    allHandleNames.filter handleSatisfiesResource
      = [HandleName.buffer, HandleName.texture] := by
  decide

/-- Claim C4: create_depth_stencil_state is infallible: its signature in the
source carries no error channel (it is the unique `Device` operation whose
return type is not a `Result`), and for every descriptor and device state it
returns the usable state materialized from the descriptor, with the device
unchanged. -/
theorem c4_depth_stencil_infallible :
    (deviceOps.find? (fun op => decide (op.creates = HandleName.depthStencilState))).map
        DeviceOp.errorChannel = some none
    ∧ ∀ (d : DeviceState) (desc : DepthStencilStateDescriptor),
        Device.create_depth_stencil_state d desc = (DepthStencilState.mk desc, d) :=
  ⟨by decide, fun _ _ => rfl⟩

/-- Witness for C4 at a concrete descriptor and device state. -/
theorem c4_depth_stencil_infallible_witness :
    Device.create_depth_stencil_state (DeviceState.mk 0 true 4096)
        (DepthStencilStateDescriptor.mk 7)
      = (DepthStencilState.mk (DepthStencilStateDescriptor.mk 7),
         DeviceState.mk 0 true 4096) :=
  c4_depth_stencil_infallible.2 (DeviceState.mk 0 true 4096)
    (DepthStencilStateDescriptor.mk 7)

/-- Claim C5: every fallible creation operation, given an invalid input,
returns its own matching error kind and leaves the device state unchanged:
creation fails atomically with no partially constructed resource. -/
theorem c5_invalid_input_error_state_unchanged :
    (∀ (d : DeviceState) (input : ShaderProgramInput), input.wellFormed = false →
        Device.create_shader_program d input
          = (Except.error ShaderProgramCreationError.compilationFailed, d))
    ∧ (∀ (d : DeviceState) (hints : Option BufferHints),
        Device.create_buffer d 0 hints
          = (Except.error BufferCreationError.invalidLength, d))
    ∧ (∀ (d : DeviceState) (desc : TextureDescriptor), desc.supported = false →
        Device.create_texture d desc
          = (Except.error TextureCreationError.unsupportedDescriptor, d))
    ∧ (∀ (d : DeviceState) (desc : SamplerDescriptor), desc.valid = false →
        Device.create_sampler d desc
          = (Except.error SamplerCreationError.invalidDescriptor, d))
    ∧ (∀ (d : DeviceState) (desc : RenderPipelineDescriptor), desc.compatible = false →
        Device.create_render_pipeline d desc
          = (Except.error RenderPipelineCreationError.incompatibleState, d))
    ∧ (∀ (d : DeviceState) (count : Option Nat), d.canAlloc = false →
        Device.create_command_queue d count
          = (Except.error CommandQueueCreationError.allocationFailed, d)) :=
  ⟨fun d input h => by simp [Device.create_shader_program, h],
   fun d hints => by simp [Device.create_buffer],
   fun d desc h => by simp [Device.create_texture, h],
   fun d desc h => by simp [Device.create_sampler, h],
   fun d desc h => by simp [Device.create_render_pipeline, h],
   fun d count h => by simp [Device.create_command_queue, h]⟩

/-- Witness for C5: each fallible operation applied to a concrete invalid
input on a concrete device. -/
theorem c5_invalid_input_error_state_unchanged_witness :
    Device.create_shader_program (DeviceState.mk 0 true 4096)
        (ShaderProgramInput.mk 1 false)
      = (Except.error ShaderProgramCreationError.compilationFailed,
         DeviceState.mk 0 true 4096)
    ∧ Device.create_buffer (DeviceState.mk 0 true 4096) 0 none
      = (Except.error BufferCreationError.invalidLength,
         DeviceState.mk 0 true 4096)
    ∧ Device.create_texture (DeviceState.mk 0 true 4096)
        (TextureDescriptor.mk 1 false)
      = (Except.error TextureCreationError.unsupportedDescriptor,
         DeviceState.mk 0 true 4096)
    ∧ Device.create_sampler (DeviceState.mk 0 true 4096)
        (SamplerDescriptor.mk 1 false)
      = (Except.error SamplerCreationError.invalidDescriptor,
         DeviceState.mk 0 true 4096)
    ∧ Device.create_render_pipeline (DeviceState.mk 0 true 4096)
        (RenderPipelineDescriptor.mk 1 false)
      = (Except.error RenderPipelineCreationError.incompatibleState,
         DeviceState.mk 0 true 4096)
    ∧ Device.create_command_queue (DeviceState.mk 0 false 4096) (some 4)
      = (Except.error CommandQueueCreationError.allocationFailed,
         DeviceState.mk 0 false 4096) :=
  ⟨c5_invalid_input_error_state_unchanged.1 (DeviceState.mk 0 true 4096)
      (ShaderProgramInput.mk 1 false) rfl,
   c5_invalid_input_error_state_unchanged.2.1 (DeviceState.mk 0 true 4096) none,
   c5_invalid_input_error_state_unchanged.2.2.1 (DeviceState.mk 0 true 4096)
      (TextureDescriptor.mk 1 false) rfl,
   c5_invalid_input_error_state_unchanged.2.2.2.1 (DeviceState.mk 0 true 4096)
      (SamplerDescriptor.mk 1 false) rfl,
   c5_invalid_input_error_state_unchanged.2.2.2.2.1 (DeviceState.mk 0 true 4096)
      (RenderPipelineDescriptor.mk 1 false) rfl,
   c5_invalid_input_error_state_unchanged.2.2.2.2.2 (DeviceState.mk 0 false 4096)
      (some 4) rfl⟩

/-- Claim C6: create_buffer with length 0 fails with the buffer creation
error kind, for any hints argument and any device state, leaving the device
unchanged. -/
theorem c6_zero_length_buffer_fails (d : DeviceState) (hints : Option BufferHints) :
    Device.create_buffer d 0 hints
      = (Except.error BufferCreationError.invalidLength, d) := by
  simp [Device.create_buffer]

/-- Witness for C6 at a concrete device state and default hints. -/
theorem c6_zero_length_buffer_fails_witness :
    Device.create_buffer (DeviceState.mk 3 true 4096) 0 none
      = (Except.error BufferCreationError.invalidLength,
         DeviceState.mk 3 true 4096) :=
  c6_zero_length_buffer_fails (DeviceState.mk 3 true 4096) none

/-- Claim C7: on a healthy device (allocation succeeds and the backend limit
admits 1024 bytes), create_buffer 1024 with no hints succeeds and yields a
buffer of capacity exactly 1024 bytes carrying the default hints. -/
theorem c7_buffer_1024_default_hints (d : DeviceState)
    (h1 : d.canAlloc = true) (h2 : 1024 ≤ d.maxBufferLength) :
    Device.create_buffer d 1024 none
      = (Except.ok (Buffer.mk d.nextId 1024 BufferHints.default),
         DeviceState.mk (d.nextId + 1) d.canAlloc d.maxBufferLength) := by
  have hx : ¬ (1024 = 0 ∨ d.maxBufferLength < 1024) := by omega
  simp [Device.create_buffer, hx, h1, h2, BufferHints.default]

/-- Witness for C7 on a concrete healthy device. -/
theorem c7_buffer_1024_default_hints_witness :
    Device.create_buffer (DeviceState.mk 0 true 4096) 1024 none
      = (Except.ok (Buffer.mk 0 1024 BufferHints.default),
         DeviceState.mk 1 true 4096) := by
  have h := c7_buffer_1024_default_hints (DeviceState.mk 0 true 4096) rfl (by decide)
  simpa using h

/-- Claim C8: a command queue created unbounded never blocks a submission
for capacity reasons: after any event trace, however many buffers were
submitted without completing, the pending FIFO is empty and any further
submission is accepted immediately, growing the outstanding count. -/
theorem c8_unbounded_never_blocks (es : List QEvent) (id : Nat) :
    ((QueueState.new none).run es).pending = []
    ∧ (((QueueState.new none).run es).submit id).pending = []
    ∧ (((QueueState.new none).run es).submit id).outstanding
        = ((QueueState.new none).run es).outstanding + 1
    ∧ (((QueueState.new none).run es).submit id).accepted
        = ((QueueState.new none).run es).accepted ++ [id] := by
  obtain ⟨hc, hp⟩ := QueueState.run_unbounded es (QueueState.new none) rfl rfl
  refine ⟨hp, ?_, ?_, ?_⟩
  · unfold QueueState.submit
    rw [hc]
    exact hp
  · unfold QueueState.submit
    rw [hc]
  · unfold QueueState.submit
    rw [hc]

/-- Witness for C8 after a concrete trace of three submissions. -/
theorem c8_unbounded_never_blocks_witness :
    (((QueueState.new none).run
        [QEvent.submit 0, QEvent.submit 1, QEvent.submit 2]).submit 3).pending = [] :=
  (c8_unbounded_never_blocks [QEvent.submit 0, QEvent.submit 1, QEvent.submit 2] 3).2.1

/-- Claim C9: sampler creation is not memoized: two successive creations
from the same valid descriptor both succeed and yield handles carrying
equal descriptors (functionally equivalent) but distinct identities, never
the same handle. -/
theorem c9_sampler_not_memoized (d : DeviceState) (desc : SamplerDescriptor)
    (hv : desc.valid = true) :
    ∃ (s1 s2 : Sampler) (d1 d2 : DeviceState),
      Device.create_sampler d desc = (Except.ok s1, d1)
      ∧ Device.create_sampler d1 desc = (Except.ok s2, d2)
      ∧ s1.id ≠ s2.id
      ∧ s1.desc = s2.desc := by
  refine ⟨Sampler.mk d.nextId desc, Sampler.mk (d.nextId + 1) desc,
          DeviceState.mk (d.nextId + 1) d.canAlloc d.maxBufferLength,
          DeviceState.mk (d.nextId + 1 + 1) d.canAlloc d.maxBufferLength,
          ?_, ?_, ?_, rfl⟩
  · simp [Device.create_sampler, hv]
  · simp [Device.create_sampler, hv]
  · show d.nextId ≠ d.nextId + 1
    omega

/-- Witness for C9: two creations from one concrete valid descriptor. -/
theorem c9_sampler_not_memoized_witness :
    ∃ (s1 s2 : Sampler) (d1 d2 : DeviceState),
      Device.create_sampler (DeviceState.mk 0 true 4096)
          (SamplerDescriptor.mk 5 true) = (Except.ok s1, d1)
      ∧ Device.create_sampler d1 (SamplerDescriptor.mk 5 true) = (Except.ok s2, d2)
      ∧ s1.id ≠ s2.id
      ∧ s1.desc = s2.desc :=
  c9_sampler_not_memoized (DeviceState.mk 0 true 4096)
    (SamplerDescriptor.mk 5 true) rfl

/-- Claim C10: the interface of create_command_queue admits the count
`some 0`: creation does not reject it and defines no failure condition for
it — on a device whose backend can allocate, creation succeeds for every
count, including `some 0`, with failure depending only on allocation health
— yet the resulting zero-capacity queue blocks every submission
immediately, with no outstanding buffer able to complete. -/
theorem c10_capacity_zero_accepted (d : DeviceState) (h : d.canAlloc = true) :
    Device.create_command_queue d (some 0)
      = (Except.ok (CommandQueue.mk d.nextId (QueueState.new (some 0))),
         DeviceState.mk (d.nextId + 1) d.canAlloc d.maxBufferLength)
    ∧ (∀ count : Option Nat, ∃ q d2,
        Device.create_command_queue d count = (Except.ok q, d2)
          ∧ q.queue.capacity = count)
    ∧ (∀ id : Nat, (QueueState.new (some 0)).submit id
        = QueueState.mk (some 0) 0 [id] []) := by
  refine ⟨?_, ?_, ?_⟩
  · simp [Device.create_command_queue, h]
  · intro count
    refine ⟨CommandQueue.mk d.nextId (QueueState.new count),
            DeviceState.mk (d.nextId + 1) d.canAlloc d.maxBufferLength, ?_, rfl⟩
    simp [Device.create_command_queue, h]
  · intro id
    rfl

/-- Witness for C10 on a concrete healthy device. -/
theorem c10_capacity_zero_accepted_witness :
    Device.create_command_queue (DeviceState.mk 0 true 4096) (some 0)
      = (Except.ok (CommandQueue.mk 0 (QueueState.new (some 0))),
         DeviceState.mk 1 true 4096)
    ∧ (QueueState.new (some 0)).submit 9 = QueueState.mk (some 0) 0 [9] [] := by
  have h := c10_capacity_zero_accepted (DeviceState.mk 0 true 4096) rfl
  exact ⟨by simpa using h.1, h.2.2 9⟩

end MetalSketch
